import Mathlib

/-!
Shallow embedding of `src/hvac2.py` — a FastAPI bridge between HTTP and a
Modbus RTU serial bus driving HVAC vent controllers.

Modelling conventions:
* The pymodbus client (`modbus_client`) is modelled by a `Transport` record of
  pure response oracles; each client call yields a `RdRes`: a successful
  response (`val`), a response whose `isError()` is true (`errRes`), or a
  raised `ModbusException` (`exn`).
* Python ints are `Int`; register/temperature scaling (`x / 10`) is exact
  rational arithmetic (`Rat`) — the float values the code manipulates are
  exactly representable at these magnitudes.
* Python `int(...)` applied to an exact quotient is truncation toward zero,
  modelled by `intTrunc`.
* Functions whose only observable effect is bus traffic additionally return
  the list of bus operations (`BusOp`) they issued, in order.
* The `time.sleep(0.1)` pacing delay and CORS setup have no bearing on the
  values computed and are not modelled.
-/

namespace Hvac2

/-- Outcome of one pymodbus client call: a successful response carrying a
value, a response object whose `isError()` returns true (also covers a falsy
response), or a raised `ModbusException`. -/
inductive RdRes (α : Type) where
  | val (a : α)
  | errRes
  | exn (msg : String)
deriving Repr, DecidableEq

/-- Whether the client call raised `ModbusException` (as opposed to
returning a response, error-reporting or not). -/
def RdRes.isExn : RdRes α → Bool
  | .exn _ => true
  | _ => false

/-- The shared `modbus_client` plus the module-level `is_connected` flag
(`hvac2.py` lines 22–32): response oracles for the four client primitives
used by the code, keyed by the arguments of each call. -/
structure Transport where
  connected : Bool
  readDiscrete : Int → Int → RdRes Bool
  readInput : Int → Int → RdRes Int
  coilWrite : Int → Int → Int → RdRes Unit
  regWrite : Int → Int → Int → RdRes Unit

/-- One bus transaction issued against the shared client, with its
arguments (address, value where applicable, slave id). -/
inductive BusOp where
  | wCoil (address value slave : Int)
  | wReg (address value slave : Int)
  | rDisc (address slave : Int)
  | rInput (address slave : Int)
deriving Repr, DecidableEq

/-- `CommandRequest` (lines 35–39). The pydantic model defaults `slave_id`
to 1; the default does not affect any claim and callers here always pass it. -/
structure CommandRequest where
  action : String
  value : Int
  address : Int
  slave_id : Int
deriving Repr, DecidableEq

/-- A `{"status": ..., "message": ...}` JSON response body. -/
structure CtrlResp where
  status : String
  message : String
deriving Repr, DecidableEq

/-- `write_coil` (lines 42–47): returns `not result.isError()`, and `False`
when the client raises `ModbusException`. Also reports the single bus
operation it issued. -/
def write_coil (tr : Transport) (address value slave_id : Int) :
    Bool × List BusOp :=
  (match tr.coilWrite address value slave_id with
   | .val _ => true
   | .errRes => false
   | .exn _ => false,
   [BusOp.wCoil address value slave_id])

/-- `write_register` (lines 49–54), analogous to `write_coil`. -/
def write_register (tr : Transport) (address value slave_id : Int) :
    Bool × List BusOp :=
  (match tr.regWrite address value slave_id with
   | .val _ => true
   | .errRes => false
   | .exn _ => false,
   [BusOp.wReg address value slave_id])

/-- Rendering of the Python f-string fragment `{value / 10:.1f}` for an
integer register value: the exact decimal of value ÷ 10 with one digit after
the point (the division is exact to one decimal place, so float formatting
introduces no rounding at these magnitudes). -/
def formatTenths (v : Int) : String :=
  if v < 0 then
    "-" ++ toString (v.natAbs / 10) ++ "." ++ toString (v.natAbs % 10)
  else
    toString (v.natAbs / 10) ++ "." ++ toString (v.natAbs % 10)

/-- `control_device`, the `POST /api/control` handler (lines 67–87).
Returns the JSON response and the bus operations issued. -/
def control_device (tr : Transport) (cmd : CommandRequest) :
    CtrlResp × List BusOp :=
  if tr.connected = false then
    ({ status := "error", message := "❌ Modbus device not connected" }, [])
  else if cmd.action = "coil" then
    let r := write_coil tr cmd.address cmd.value cmd.slave_id
    ({ status := if r.1 then "success" else "error",
       message := "Coil at address " ++ toString cmd.address ++ " set to " ++
         toString cmd.value }, r.2)
  else if cmd.action = "temp" then
    let r := write_register tr cmd.address cmd.value cmd.slave_id
    ({ status := if r.1 then "success" else "error",
       message := "Temperature at address " ++ toString cmd.address ++
         " set to " ++ formatTenths cmd.value ++ "°C" }, r.2)
  else if cmd.action = "fan_speed" then
    let r := write_register tr cmd.address cmd.value cmd.slave_id
    ({ status := if r.1 then "success" else "error",
       message := "Fan speed at address " ++ toString cmd.address ++
         " set to " ++ toString cmd.value }, r.2)
  else
    ({ status := "error", message := "Invalid action specified" }, [])

/-- `process_bulk_commands` (lines 57–64): the background worker body; its
per-command results are discarded, so its observable behaviour is the bus
traffic it generates, in submission order. -/
def process_bulk_commands (tr : Transport) (commands : List CommandRequest) :
    List BusOp :=
  (commands.map fun cmd =>
    if cmd.action = "coil" then
      (write_coil tr cmd.address cmd.value cmd.slave_id).2
    else if cmd.action = "temp" then
      (write_register tr cmd.address cmd.value cmd.slave_id).2
    else if cmd.action = "fan_speed" then
      (write_register tr cmd.address cmd.value cmd.slave_id).2
    else []).flatten

/-- `bulk_control_device`, the `POST /api/control/bulk` handler
(lines 90–99): when disconnected it answers with an error and schedules no
background work; otherwise it schedules `process_bulk_commands` (whose bus
traffic is the second component) and acknowledges immediately. -/
def bulk_control_device (tr : Transport) (commands : List CommandRequest) :
    CtrlResp × List BusOp :=
  if tr.connected = false then
    ({ status := "error", message := "❌ Modbus device not connected" }, [])
  else
    ({ status := "success",
       message := "✅ " ++ toString commands.length ++
         " commands are being processed in the background" },
     process_bulk_commands tr commands)

/-- Return value of `get_device_data` (lines 102–132): the full status dict
(`outside_temp` is the extra key present only in the disconnected fallback
dict), or the `{"Status": "error", "message": ...}` dict produced when a
client call raises `ModbusException`. -/
inductive StatusResp where
  | ok (status : Int) (temp : Rat) (speed : Int) (outside_temp : Option Int)
  | err (msg : String)
deriving Repr, DecidableEq

/-- `get_device_data`, the `GET /api/status` handler (lines 102–132),
together with the bus reads it issued. Disconnected: the fixed simulated
dict `{"Status": 1, "Temp": 20, "Speed": 1, "outside_temp": 66}` with no bus
access. Connected: three sequential reads; a read whose response reports an
error contributes the default 0 for its field only, while a raised
`ModbusException` aborts into the fixed error dict. -/
def get_device_data (tr : Transport) (slave_id onA tempA speedA : Int) :
    StatusResp × List BusOp :=
  if tr.connected = false then
    (.ok 1 20 1 (some 66), [])
  else
    match tr.readDiscrete onA slave_id with
    | .exn _ => (.err "Failed to read from Modbus device",
                 [.rDisc onA slave_id])
    | d =>
      let input_status : Int := match d with
        | .val b => if b then 1 else 0
        | _ => 0
      match tr.readInput tempA slave_id with
      | .exn _ => (.err "Failed to read from Modbus device",
                   [.rDisc onA slave_id, .rInput tempA slave_id])
      | t =>
        let temperature : Rat := match t with
          | .val r => (r : Rat) / 10
          | _ => 0
        match tr.readInput speedA slave_id with
        | .exn _ => (.err "Failed to read from Modbus device",
                     [.rDisc onA slave_id, .rInput tempA slave_id,
                      .rInput speedA slave_id])
        | s =>
          let speed : Int := match s with
            | .val r => r
            | _ => 0
          (.ok input_status temperature speed none,
           [.rDisc onA slave_id, .rInput tempA slave_id,
            .rInput speedA slave_id])

/-- Truncation toward zero of the exact quotient a ÷ b (for b > 0): Python
`int(...)` applied to a float quotient. Lean `Int` division `/` is Euclidean,
which for b > 0 rounds toward negative infinity, so the negative case is
negated. -/
def intTrunc (a b : Int) : Int :=
  if 0 ≤ a then a / b else -(-a / b)

/-- `vent_from_temp = int((temp[i] - 1) / 156 + 1)` (line 171); the exact
quotient inside `int(...)` is `(tempA - 1 + 156) / 156`. -/
def vent_from_temp (tempA : Int) : Int :=
  intTrunc (tempA - 1 + 156) 156

/-- `vent_from_speed = int((speed[i] - 36) / 156 + 1)` (line 172). -/
def vent_from_speed (speedA : Int) : Int :=
  intTrunc (speedA - 36 + 156) 156

/-- The SPEC's vent-number formula (`spec.md` §4.5), for comparison with the
code's `vent_from_temp`: `floor((tempAddress − 1) / 156) + 1`. For the
positive divisor 156, Lean `Int` division is exactly floor division. -/
def ventFromTempSpec (tempA : Int) : Int :=
  (tempA - 1) / 156 + 1

/-- The SPEC's second vent-number formula (`spec.md` §4.5):
`floor((speedAddress − 36) / 156) + 1`. -/
def ventFromSpeedSpec (speedA : Int) : Int :=
  (speedA - 36) / 156 + 1

/-- One element of the `results` list built by `fetch_bulk_data`: either the
dict appended on line 180 or the error dict appended on line 189 (whose
`"Status"` key holds the string `"error"` and whose `vent_number` is None). -/
inductive BulkEntry where
  | ok (slave_id : Int) (status : Int) (temp : Rat) (speed : Int)
      (vent_number : Option Int)
  | err (slave_id : Int) (message : String)
deriving Repr, DecidableEq

/-- The `"slave_id"` value of an entry. -/
def BulkEntry.slave : BulkEntry → Int
  | .ok s _ _ _ _ => s
  | .err s _ => s

/-- The `"vent_number"` value of an entry (None on the error dict). -/
def BulkEntry.vent : BulkEntry → Option Int
  | .ok _ _ _ _ v => v
  | .err _ _ => none

/-- Whether the entry is the error dict. -/
def BulkEntry.isErr : BulkEntry → Bool
  | .ok _ _ _ _ _ => false
  | .err _ _ => true

/-- The keys of the Python dict a `BulkEntry` stands for, in insertion order
(lines 180–186 resp. 189–194). -/
def bulkEntryKeys : BulkEntry → List String
  | .ok _ _ _ _ _ => ["slave_id", "Status", "Temp", "Speed", "vent_number"]
  | .err _ _ => ["slave_id", "Status", "message", "vent_number"]

/-- One iteration of the `fetch_bulk_data` loop body (lines 162–194) for
index i, given `slave_id[i]` and the `Option`-valued lookups `on[i]`,
`temp[i]`, `speed[i]` (`none` models the `IndexError` a too-short parallel
array raises, whose `str(e)` is "list index out of range"). When
`get_device_data` returns its `ModbusException` error dict, the append on
line 184 raises `KeyError("Temp")` — `str(e)` is "'Temp'" — which the
`except Exception` turns into the error entry. -/
def fetchEntry (tr : Transport) (sid : Int) (onA tempA speedA : Option Int) :
    BulkEntry × List BusOp :=
  match onA, tempA, speedA with
  | some o, some ta, some sa =>
    let r := get_device_data tr sid o ta sa
    (match r.1 with
     | .err _ => .err sid "\x27Temp\x27"
     | .ok a b c _ =>
        .ok sid a b c
          (if vent_from_temp ta = vent_from_speed sa then
            some (vent_from_temp ta)
          else
            none),
     r.2)
  | _, _, _ => (.err sid "list index out of range", [])

/-- The `fetch_bulk_data` loop (lines 158–196): one `(entry, bus ops)` pair
per index of `slave_id`, in index order. -/
def fetch_rows (tr : Transport) (slave_id onL tempL speedL : List Int) :
    List (BulkEntry × List BusOp) :=
  (List.range slave_id.length).map fun i =>
    fetchEntry tr (slave_id.getD i 0) onL[i]? tempL[i]? speedL[i]?

/-- The `results` list `fetch_bulk_data` stores (line 198). -/
def fetch_bulk_data (tr : Transport) (slave_id onL tempL speedL : List Int) :
    List BulkEntry :=
  (fetch_rows tr slave_id onL tempL speedL).map Prod.fst

/-- Python dict assignment `d[k] = v` on a string-keyed dict modelled as an
insertion-ordered association list: replaces the value in place when the key
is present, appends otherwise. -/
def dictInsert (k : String) (v : α) : List (String × α) → List (String × α)
  | [] => [(k, v)]
  | (k2, v2) :: rest =>
      if k = k2 then (k, v) :: rest else (k2, v2) :: dictInsert k v rest

/-- The effect of one completed `fetch_bulk_data` run on the module-level
`bulk_results` dict: `bulk_results["last_run"] = results` (line 198). -/
def run_and_store (tr : Transport) (slave_id onL tempL speedL : List Int)
    (store : List (String × List BulkEntry)) :
    List (String × List BulkEntry) :=
  dictInsert "last_run" (fetch_bulk_data tr slave_id onL tempL speedL) store

/-- Return value of `get_bulk_results` (lines 201–203): the whole
`bulk_results` dict when it is non-empty (truthy), else the
`{"message": "No results yet"}` indicator. -/
inductive GetBulkResp where
  | dict (d : List (String × List BulkEntry))
  | noResults (msg : String)
deriving Repr, DecidableEq

/-- `get_bulk_results`, the `GET /api/status/bulk/results` handler. -/
def get_bulk_results (store : List (String × List BulkEntry)) : GetBulkResp :=
  if store.isEmpty then .noResults "No results yet" else .dict store

/-! ### Concrete transports used by witnesses and counterexamples -/

/-- A transport whose startup `connect()` failed (`is_connected = False`). -/
def offT : Transport where
  connected := false
  readDiscrete := fun _ _ => .errRes
  readInput := fun _ _ => .errRes
  coilWrite := fun _ _ _ => .errRes
  regWrite := fun _ _ _ => .errRes

/-- A connected transport on which every call succeeds; register reads all
return 205. -/
def okT : Transport where
  connected := true
  readDiscrete := fun _ _ => .val true
  readInput := fun _ _ => .val 205
  coilWrite := fun _ _ _ => .val ()
  regWrite := fun _ _ _ => .val ()

/-- A connected transport on which the register read at address 1 reports an
error response, while everything else succeeds (speed reads return 3). -/
def errTempT : Transport where
  connected := true
  readDiscrete := fun _ _ => .val true
  readInput := fun a _ => if a = 1 then .errRes else .val 3
  coilWrite := fun _ _ _ => .val ()
  regWrite := fun _ _ _ => .val ()

/-- A connected transport on which both the discrete-input read and the
register read at address 1 report error responses, while the register read
at address 36 succeeds with 3. -/
def errTwoT : Transport where
  connected := true
  readDiscrete := fun _ _ => .errRes
  readInput := fun a _ => if a = 36 then .val 3 else .errRes
  coilWrite := fun _ _ _ => .val ()
  regWrite := fun _ _ _ => .val ()

/-- A connected transport on which every call against slave 2 raises
`ModbusException`, while other slaves succeed (register reads return 7). -/
def exnT : Transport where
  connected := true
  readDiscrete := fun _ s => if s = 2 then .exn "boom" else .val true
  readInput := fun _ s => if s = 2 then .exn "boom" else .val 7
  coilWrite := fun _ _ _ => .val ()
  regWrite := fun _ _ _ => .val ()

/-! ### Helper lemmas -/

/-- For a non-negative dividend, truncation toward zero agrees with Lean's
Euclidean division. -/
theorem intTrunc_of_nonneg (a b : Int) (ha : 0 ≤ a) : intTrunc a b = a / b := by
  unfold intTrunc
  exact if_pos ha

/-- On non-negative temperature addresses the code's truncating formula
agrees with the spec's floor formula. -/
theorem vent_from_temp_eq_spec (t : Int) (ht : 0 ≤ t) :
    vent_from_temp t = ventFromTempSpec t := by
  unfold vent_from_temp ventFromTempSpec
  rw [intTrunc_of_nonneg _ _ (by omega)]
  omega

/-- On non-negative speed addresses the code's truncating formula agrees
with the spec's floor formula. -/
theorem vent_from_speed_eq_spec (s : Int) (hs : 0 ≤ s) :
    vent_from_speed s = ventFromSpeedSpec s := by
  unfold vent_from_speed ventFromSpeedSpec
  rw [intTrunc_of_nonneg _ _ (by omega)]
  omega

/-- Row i of a bulk run is the loop body applied to the i-th entries of the
parallel arrays. -/
theorem fetch_rows_getElem (tr : Transport) (s o tp sp : List Int) (i : Nat)
    (h : i < s.length) :
    (fetch_rows tr s o tp sp)[i]? =
      some (fetchEntry tr (s.getD i 0) o[i]? tp[i]? sp[i]?) := by
  simp [fetch_rows, List.getElem?_map, List.getElem?_range, h]

/-- Entry i of a bulk run's result list is the first component of row i. -/
theorem fetch_bulk_data_getElem (tr : Transport) (s o tp sp : List Int)
    (i : Nat) (h : i < s.length) :
    (fetch_bulk_data tr s o tp sp)[i]? =
      some (fetchEntry tr (s.getD i 0) o[i]? tp[i]? sp[i]?).1 := by
  simp [fetch_bulk_data, List.getElem?_map, fetch_rows_getElem tr s o tp sp i h]

/-- Every entry the loop body produces carries the slave id it was given. -/
theorem fetchEntry_slave (tr : Transport) (sid : Int)
    (onA tempA speedA : Option Int) :
    ((fetchEntry tr sid onA tempA speedA).1).slave = sid := by
  rcases onA with _ | o <;> rcases tempA with _ | ta <;>
    rcases speedA with _ | sa <;> simp only [fetchEntry] <;> try rfl
  rcases h : (get_device_data tr sid o ta sa).1 with _ | _ <;>
    simp [h, BulkEntry.slave]

/-- A bulk run produces exactly one entry per element of `slave_id`. -/
theorem fetch_bulk_data_length (tr : Transport) (s o tp sp : List Int) :
    (fetch_bulk_data tr s o tp sp).length = s.length := by
  simp [fetch_bulk_data, fetch_rows]

/-- On a connected transport a status read always issues at least its first
bus read, the discrete-input read for the unit polled. -/
theorem get_device_data_ops_head (tr : Transport) (sid o ta sa : Int)
    (hc : tr.connected = true) :
    ∃ rest, (get_device_data tr sid o ta sa).2 = BusOp.rDisc o sid :: rest := by
  rcases hd : tr.readDiscrete o sid with b | _ | m <;>
    rcases hT : tr.readInput ta sid with t | _ | m2 <;>
      rcases hS : tr.readInput sa sid with sv | _ | m3 <;>
        simp [get_device_data, hc, hd, hT, hS]

/-! ### Claims -/

/-- C1, counterexample: the claim's floor formulas disagree at
tempAddress = −156, speedAddress = −120 (−1 vs 0), so the claim demands
vent_number null there; the code truncates toward zero, its two values agree
at 0, and the bulk run records vent_number 0. -/
theorem C1_counterexample :
    (ventFromTempSpec (-156) == ventFromSpeedSpec (-120)) = false ∧
    fetch_bulk_data offT [1] [0] [-156] [-120] =
      [BulkEntry.ok 1 1 20 1 (some 0)] := by
  constructor
  · decide
  · rfl

/-- C1, amended: for non-negative temp and speed addresses the code's
truncating derivation coincides with the floor formulas
`ventFromTemp = floor((tempAddress − 1)/156) + 1` and
`ventFromSpeed = floor((speedAddress − 36)/156) + 1`; a bulk-run query whose
status read succeeds records vent_number equal to the common value when the
two formulas agree and null when they disagree; and the three quoted
examples hold (1/36 ↦ 1, 157/192 ↦ 2, 1/192 mismatched). -/
theorem C1_vent_number_derivation (tr : Transport) (sid o tA sA : Int)
    (ht : 0 ≤ tA) (hs : 0 ≤ sA) :
    vent_from_temp tA = ventFromTempSpec tA ∧
    vent_from_speed sA = ventFromSpeedSpec sA ∧
    (∀ st tv sv outs ops,
      get_device_data tr sid o tA sA = (.ok st tv sv outs, ops) →
      fetch_bulk_data tr [sid] [o] [tA] [sA] =
        [.ok sid st tv sv
          (if ventFromTempSpec tA = ventFromSpeedSpec sA then
            some (ventFromTempSpec tA)
          else
            none)]) ∧
    ventFromTempSpec 1 = 1 ∧ ventFromSpeedSpec 36 = 1 ∧
    ventFromTempSpec 157 = 2 ∧ ventFromSpeedSpec 192 = 2 ∧
    (ventFromTempSpec 1 == ventFromSpeedSpec 192) = false := by
  refine ⟨vent_from_temp_eq_spec tA ht, vent_from_speed_eq_spec sA hs, ?_,
    by decide, by decide, by decide, by decide, by decide⟩
  intro st tv sv outs ops h
  have hr : List.range 1 = [0] := rfl
  simp [fetch_bulk_data, fetch_rows, fetchEntry, h, hr,
    vent_from_temp_eq_spec tA ht, vent_from_speed_eq_spec sA hs]

/-- C1, witness: a one-query run with tempAddress 1 and speedAddress 36
yields vent_number 1, and tempAddress 157 maps to vent 2. -/
theorem C1_witness :
    fetch_bulk_data offT [1] [0] [1] [36] = [BulkEntry.ok 1 1 20 1 (some 1)] ∧
    ventFromTempSpec 157 = 2 := by
  have h := C1_vent_number_derivation offT 1 0 1 36 (by decide) (by decide)
  refine ⟨?_, h.2.2.2.2.2.1⟩
  have h2 := h.2.2.1 1 20 1 (some 66) [] rfl
  simpa [ventFromTempSpec, ventFromSpeedSpec] using h2

/-- C2: a bulk run over equal-length parallel arrays produces exactly one
entry per query, in submission order (entry i carries slave_id i); a query
whose status read surfaces the error dict yields an error-marked entry with
vent_number null at its own position, and (the length conjunct holding with
no assumption on the reads) the remaining queries are still processed;
moreover on a connected transport every one of the N queries issues at
least its unit's discrete-input bus read. -/
theorem C2_bulk_run_per_query (tr : Transport) (s o tp sp : List Int)
    (ho : o.length = s.length) (ht : tp.length = s.length)
    (hp : sp.length = s.length) :
    (fetch_bulk_data tr s o tp sp).length = s.length ∧
    (∀ i, i < s.length →
      ((fetch_bulk_data tr s o tp sp)[i]?).map BulkEntry.slave =
        some (s.getD i 0)) ∧
    (∀ i m, i < s.length →
      (get_device_data tr (s.getD i 0) (o.getD i 0) (tp.getD i 0)
          (sp.getD i 0)).1 = .err m →
      (fetch_bulk_data tr s o tp sp)[i]? =
        some (.err (s.getD i 0) "\x27Temp\x27") ∧
      BulkEntry.vent (.err (s.getD i 0) "\x27Temp\x27") = none) ∧
    (∀ i, i < s.length → tr.connected = true →
      ∃ rest, ((fetch_rows tr s o tp sp)[i]?).map Prod.snd =
        some (BusOp.rDisc (o.getD i 0) (s.getD i 0) :: rest)) := by
  have key : ∀ i, i < s.length →
      o[i]? = some (o.getD i 0) ∧ tp[i]? = some (tp.getD i 0) ∧
      sp[i]? = some (sp.getD i 0) := by
    intro i hi
    refine ⟨?_, ?_, ?_⟩
    · have hlt : i < o.length := by omega
      rw [List.getElem?_eq_getElem hlt, List.getD_eq_getElem o 0 hlt]
    · have hlt : i < tp.length := by omega
      rw [List.getElem?_eq_getElem hlt, List.getD_eq_getElem tp 0 hlt]
    · have hlt : i < sp.length := by omega
      rw [List.getElem?_eq_getElem hlt, List.getD_eq_getElem sp 0 hlt]
  refine ⟨fetch_bulk_data_length tr s o tp sp, fun i hi => ?_, ?_, ?_⟩
  · rw [fetch_bulk_data_getElem tr s o tp sp i hi]
    simp [fetchEntry_slave]
  · intro i m hi herr
    obtain ⟨hoi, htpi, hspi⟩ := key i hi
    refine ⟨?_, rfl⟩
    rw [fetch_bulk_data_getElem tr s o tp sp i hi, hoi, htpi, hspi]
    simp only [fetchEntry]
    rw [herr]
  · intro i hi hcon
    obtain ⟨hoi, htpi, hspi⟩ := key i hi
    rw [fetch_rows_getElem tr s o tp sp i hi, hoi, htpi, hspi]
    obtain ⟨rest, hrest⟩ :=
      get_device_data_ops_head tr (s.getD i 0) (o.getD i 0) (tp.getD i 0)
        (sp.getD i 0) hcon
    refine ⟨rest, ?_⟩
    simp only [fetchEntry, hrest]
    rfl

/-- C2, witness: on a three-query run where every bus call against slave 2
raises, the snapshot still has three entries and position 1 holds the
error-marked entry for slave 2. -/
theorem C2_witness :
    (fetch_bulk_data exnT [1, 2, 3] [0, 0, 0] [1, 1, 1] [36, 36, 36]).length
        = 3 ∧
    (fetch_bulk_data exnT [1, 2, 3] [0, 0, 0] [1, 1, 1] [36, 36, 36])[1]? =
      some (BulkEntry.err 2 "\x27Temp\x27") := by
  have h := C2_bulk_run_per_query exnT [1, 2, 3] [0, 0, 0] [1, 1, 1]
    [36, 36, 36] (by decide) (by decide) (by decide)
  exact ⟨h.1,
    (h.2.2.1 1 "Failed to read from Modbus device" (by decide) (by decide)).1⟩

/-- C3: the result store is a single slot. Before any run, `get` returns the
"No results yet" indicator; after one completed run it returns exactly that
run's snapshot under the key "last_run"; after a second completed run it
returns only the second snapshot — the first is overwritten, never
appended to. -/
theorem C3_single_slot_store :
    get_bulk_results [] = .noResults "No results yet" ∧
    (∀ tr s o tp sp, get_bulk_results (run_and_store tr s o tp sp []) =
      .dict [("last_run", fetch_bulk_data tr s o tp sp)]) ∧
    (∀ tr1 s1 o1 t1 p1 tr2 s2 o2 t2 p2,
      get_bulk_results (run_and_store tr2 s2 o2 t2 p2
          (run_and_store tr1 s1 o1 t1 p1 [])) =
        .dict [("last_run", fetch_bulk_data tr2 s2 o2 t2 p2)]) := by
  refine ⟨rfl, fun tr s o tp sp => rfl,
    fun tr1 s1 o1 t1 p1 tr2 s2 o2 t2 p2 => ?_⟩
  simp [run_and_store, dictInsert, get_bulk_results]

/-- C3, witness: two concrete runs back to back leave only the second run's
snapshot in the store. -/
theorem C3_witness :
    get_bulk_results (run_and_store okT [1] [0] [1] [36]
        (run_and_store offT [2] [0] [157] [192] [])) =
      .dict [("last_run", fetch_bulk_data okT [1] [0] [1] [36])] :=
  C3_single_slot_store.2.2 offT [2] [0] [157] [192] okT [1] [0] [1] [36]

/-- C10: whatever the lengths of the parallel arrays, a bulk run never
crashes: it stores under "last_run" exactly one entry per element of
`slave_id`, in index order (entry i carries slave_id i), and an index whose
`on`/`temp`/`speed` lookup is out of range yields the recorded
IndexError entry. -/
theorem C10_short_arrays_safe (tr : Transport) (s o tp sp : List Int) :
    (fetch_bulk_data tr s o tp sp).length = s.length ∧
    run_and_store tr s o tp sp [] =
      [("last_run", fetch_bulk_data tr s o tp sp)] ∧
    (∀ i, i < s.length →
      ((fetch_bulk_data tr s o tp sp)[i]?).map BulkEntry.slave =
        some (s.getD i 0)) ∧
    (∀ i, i < s.length →
      o.length ≤ i ∨ tp.length ≤ i ∨ sp.length ≤ i →
      (fetch_bulk_data tr s o tp sp)[i]? =
        some (.err (s.getD i 0) "list index out of range")) := by
  refine ⟨fetch_bulk_data_length tr s o tp sp, rfl, fun i hi => ?_, ?_⟩
  · rw [fetch_bulk_data_getElem tr s o tp sp i hi]
    simp [fetchEntry_slave]
  · intro i hi hshort
    rw [fetch_bulk_data_getElem tr s o tp sp i hi]
    rcases h1 : o[i]? with _ | a <;> rcases h2 : tp[i]? with _ | b <;>
      rcases h3 : sp[i]? with _ | c <;> simp only [fetchEntry] <;> try rfl
    exfalso
    rcases hshort with h | h | h
    · rw [List.getElem?_eq_none h] at h1; cases h1
    · rw [List.getElem?_eq_none h] at h2; cases h2
    · rw [List.getElem?_eq_none h] at h3; cases h3

/-- C10, witness: a two-unit request whose other arrays have length one
still yields two entries, the second being the recorded IndexError entry
for slave 8. -/
theorem C10_witness :
    (fetch_bulk_data okT [7, 8] [0] [1] [36]).length = 2 ∧
    (fetch_bulk_data okT [7, 8] [0] [1] [36])[1]? =
      some (BulkEntry.err 8 "list index out of range") := by
  have h := C10_short_arrays_safe okT [7, 8] [0] [1] [36]
  exact ⟨h.1, h.2.2.2 1 (by decide) (Or.inl (by decide))⟩

/-- C5: with a connected transport, a command whose action is none of
"coil", "temp", "fan_speed" yields the invalid-action error response and
issues no bus operation. -/
theorem C5_invalid_action (tr : Transport) (cmd : CommandRequest)
    (hc : tr.connected = true) (h1 : cmd.action ≠ "coil")
    (h2 : cmd.action ≠ "temp") (h3 : cmd.action ≠ "fan_speed") :
    control_device tr cmd =
      ({ status := "error", message := "Invalid action specified" }, []) := by
  simp [control_device, hc, h1, h2, h3]

/-- C5, witness: the action "reboot" on a connected transport fails with the
invalid-action message and zero transport calls. -/
theorem C5_witness :
    control_device okT ⟨"reboot", 1, 2, 3⟩ =
      ({ status := "error", message := "Invalid action specified" }, []) :=
  C5_invalid_action okT ⟨"reboot", 1, 2, 3⟩ rfl (by decide) (by decide)
    (by decide)

/-- C6: for a temp command on a connected transport, the outcome message
reports the written value divided by 10 with exactly one decimal digit
(for non-negative v the rendered number is the decimal q.r with
v = 10·q + r, r < 10), and 205 renders as "20.5". -/
theorem C6_temp_message (tr : Transport) (cmd : CommandRequest)
    (hc : tr.connected = true) (ha : cmd.action = "temp") :
    (control_device tr cmd).1.message =
      "Temperature at address " ++ toString cmd.address ++ " set to " ++
        formatTenths cmd.value ++ "°C" ∧
    (∀ w : Int, 0 ≤ w → ∃ q r : Nat,
      w = 10 * q + r ∧ r < 10 ∧
      formatTenths w = toString q ++ "." ++ toString r) ∧
    formatTenths 205 = "20.5" := by
  refine ⟨?_, ?_, by decide⟩
  · simp only [control_device, hc]
    rw [if_neg (by simp), ha]
    rw [if_neg (by decide), if_pos rfl]
  · intro w hw
    refine ⟨w.natAbs / 10, w.natAbs % 10, by omega, by omega, ?_⟩
    unfold formatTenths
    rw [if_neg (by omega)]

/-- C6, witness: writing temperature value 205 at address 7 reports
"20.5". -/
theorem C6_witness :
    (control_device okT ⟨"temp", 205, 7, 1⟩).1.message =
      "Temperature at address 7 set to 20.5°C" := by
  have h := C6_temp_message okT ⟨"temp", 205, 7, 1⟩ rfl rfl
  rw [h.1]
  decide

/-- C7: when the transport is not connected, the single and bulk command
endpoints short-circuit to the human-readable not-connected error and issue
no bus operation, and every single status read returns the fixed simulated
status on = 1, temp = 20.0, speed = 1 (plus the demo-only outside_temp
key) with no bus access. -/
theorem C7_not_connected (tr : Transport) (hc : tr.connected = false) :
    (∀ cmd, control_device tr cmd =
      ({ status := "error", message := "❌ Modbus device not connected" },
       [])) ∧
    (∀ cmds, bulk_control_device tr cmds =
      ({ status := "error", message := "❌ Modbus device not connected" },
       [])) ∧
    (∀ sid onA tempA speedA, get_device_data tr sid onA tempA speedA =
      (.ok 1 20 1 (some 66), [])) := by
  refine ⟨fun cmd => ?_, fun cmds => ?_, fun sid onA tempA speedA => ?_⟩
  · simp [control_device, hc]
  · simp [bulk_control_device, hc]
  · simp [get_device_data, hc]

/-- C7, witness: on the disconnected transport, a concrete command errors
without bus traffic, a concrete bulk batch errors without bus traffic, and
a concrete status read returns the simulated values. -/
theorem C7_witness :
    control_device offT ⟨"coil", 1, 0, 1⟩ =
      ({ status := "error", message := "❌ Modbus device not connected" },
       []) ∧
    bulk_control_device offT [⟨"temp", 205, 1, 1⟩] =
      ({ status := "error", message := "❌ Modbus device not connected" },
       []) ∧
    get_device_data offT 1 0 1 36 = (.ok 1 20 1 (some 66), []) :=
  ⟨(C7_not_connected offT rfl).1 ⟨"coil", 1, 0, 1⟩,
   (C7_not_connected offT rfl).2.1 [⟨"temp", 205, 1, 1⟩],
   (C7_not_connected offT rfl).2.2 1 0 1 36⟩

/-- C8: on a connected transport, whenever none of the three bus reads
raises — each read's response being either a value or an error report, in
any combination — the status read returns a full best-effort status with
all three fields: each field whose read reported an error defaults to 0
(independently of the others), and each field whose read succeeded keeps
its read value. In particular the read is never aborted because one or
more fields failed. -/
theorem C8_field_defaults (tr : Transport) (sid onA tempA speedA : Int)
    (hc : tr.connected = true)
    (d : RdRes Bool) (t s : RdRes Int)
    (hd : tr.readDiscrete onA sid = d)
    (ht : tr.readInput tempA sid = t)
    (hs : tr.readInput speedA sid = s)
    (hdx : d.isExn = false) (htx : t.isExn = false) (hsx : s.isExn = false) :
    (get_device_data tr sid onA tempA speedA).1 =
      .ok (match d with | .val b => if b then 1 else 0 | _ => 0)
          (match t with | .val r => (r : Rat) / 10 | _ => 0)
          (match s with | .val r => r | _ => 0)
          none := by
  rcases d with b | _ | m <;> rcases t with tv | _ | m2 <;>
    rcases s with sv | _ | m3 <;>
    simp only [RdRes.isExn, Bool.true_eq_false] at hdx htx hsx <;>
    simp [get_device_data, hc, hd, ht, hs]

/-- C8, witness: with only the temperature read erroring the result is
1 / 0 / 3; with both the on/off and temperature reads erroring at once the
result is 0 / 0 / 3 — in both cases a full status, never an abort. -/
theorem C8_witness :
    (get_device_data errTempT 1 0 1 36).1 = .ok 1 0 3 none ∧
    (get_device_data errTwoT 1 0 1 36).1 = .ok 0 0 3 none := by
  constructor
  · have h := C8_field_defaults errTempT 1 0 1 36 rfl (.val true) .errRes
      (.val 3) rfl rfl rfl rfl rfl rfl
    simpa using h
  · have h := C8_field_defaults errTwoT 1 0 1 36 rfl .errRes .errRes
      (.val 3) rfl rfl rfl rfl rfl rfl
    simpa using h

/-- C9, counterexample: a completed bulk run stores a snapshot carrying no
captured_at timestamp — neither the stored dict (whose only key is
"last_run") nor any result entry has a "captured_at" key. -/
theorem C9_counterexample :
    ((run_and_store okT [1] [0] [1] [36] []).map Prod.fst).contains
        "captured_at" = false ∧
    ((fetch_bulk_data okT [1] [0] [1] [36]).map bulkEntryKeys).any
        (fun ks => ks.contains "captured_at") = false := by
  decide

/-- C9, amended: the snapshot a completed bulk run stores is the bare
ordered sequence of VentResults under the single key "last_run"; each
entry's keys are exactly {slave_id, Status, Temp, Speed, vent_number} or
{slave_id, Status, message, vent_number}, so no captured_at timestamp is
recorded anywhere. -/
theorem C9_snapshot_no_timestamp (tr : Transport) (s o tp sp : List Int) :
    (run_and_store tr s o tp sp []).map Prod.fst = ["last_run"] ∧
    (∀ e, e ∈ fetch_bulk_data tr s o tp sp →
      bulkEntryKeys e =
        ["slave_id", "Status", "Temp", "Speed", "vent_number"] ∨
      bulkEntryKeys e =
        ["slave_id", "Status", "message", "vent_number"]) := by
  refine ⟨rfl, fun e he => ?_⟩
  cases e
  · exact Or.inl rfl
  · exact Or.inr rfl

/-- C9, witness for the amended claim: a concrete completed run stores only
the key "last_run". -/
theorem C9_witness :
    (run_and_store okT [1] [0] [1] [36] []).map Prod.fst = ["last_run"] :=
  (C9_snapshot_no_timestamp okT [1] [0] [1] [36]).1

end Hvac2
